import Mathlib

/-!
Shallow embedding of the browser platform adapter of the js-client-sdk
repository: the capability detector in the browserPlatform module
(src/unnamed/part_000) and the thin wiring in src/src/index.js.

Host APIs (the global object, navigator, localStorage, fetch and so on) are
modelled as an explicit record of capabilities; JS values that the code
compares with strict equality are modelled by the inductive JSVal; promises
by an inductive with a resolved and a rejected constructor; code that can
throw returns an Except value.
-/

/-- Model of the JS values that flow through the adapter: undefined, null,
booleans, (integer) numbers and strings. Strict equality of the source maps
to decidable equality of this type. -/
inductive JSVal where
  | undef : JSVal
  | null : JSVal
  | bool : Bool → JSVal
  | num : Int → JSVal
  | str : String → JSVal
  deriving DecidableEq, Repr

/-- JS truthiness of a modelled value (undefined, null, false, 0 and the
empty string are falsy). -/
def jsTruthy : JSVal → Bool
  | JSVal.undef => false
  | JSVal.null => false
  | JSVal.bool b => b
  | JSVal.num n => n != 0
  | JSVal.str s => s != ""

/-- Denotational model of a settled JS promise: it either resolves with a
value or rejects with a JS error value. -/
inductive JSPromise (α : Type) where
  | resolved : α → JSPromise α
  | rejected : JSVal → JSPromise α
  deriving DecidableEq, Repr

/-- The promise catch combinator: a rejection is fed to the handler and the
result resolves with the handler value; a resolution passes through. -/
def jsCatch {α : Type} (p : JSPromise α) (handler : JSVal → α) : JSPromise α :=
  match p with
  | JSPromise.rejected e => JSPromise.resolved (handler e)
  | JSPromise.resolved v => JSPromise.resolved v

/-- Whether a settled promise is rejected. -/
def JSPromise.isRejected {α : Type} : JSPromise α → Bool
  | JSPromise.rejected _ => true
  | JSPromise.resolved _ => false

/-- The navigator object of the host, when present, with its two
do-not-track properties (a missing property is the value undefined). -/
structure Navigator where
  doNotTrack : JSVal
  msDoNotTrack : JSVal
  deriving DecidableEq, Repr

/-- The XMLHttpRequest capability of a host: present values record whether a
freshly constructed request object has the withCredentials property. -/
structure XHRCap where
  withCredentials : Bool
  deriving DecidableEq, Repr

/-- What probing GLOBAL.localStorage does on this host: the property is
absent (falsy), present and usable, or the mere access throws a security
error. -/
inductive LSProbe where
  | absent : LSProbe
  | present : LSProbe
  | throws : LSProbe
  deriving DecidableEq, Repr

/-- An EventSource polyfill on the host global: present values record the
truthiness of supportedOptions.method (the polyfill is a function). -/
structure EventSourcePolyfillCap where
  supportedOptionsMethod : Bool
  deriving DecidableEq, Repr

/-- A host environment as the adapter observes it. The capability fields
describe the one host global object that the GLOBAL lookup of the source
resolves (self, window or the node global). hasGlobalBinding records whether
the bare identifier written in lowercase as global is bound at all: it is in
node and under bundler shims, and it is not in an unbundled browser page, a
web worker or a service worker, where reading it throws a ReferenceError.
When it is bound it denotes that same host global object (in every
environment the GLOBAL lookup of the source covers, a bound global equals
the resolved global object). -/
structure Host where
  hasGlobalBinding : Bool
  xhr : Option XHRCap
  fetch : Bool
  navigator : Option Navigator
  doNotTrackGlobal : JSVal
  localStorage : LSProbe
  eventSource : Bool
  eventSourcePolyfill : Option EventSourcePolyfillCap
  deriving DecidableEq, Repr

/-- The browser-specific options the embedded code reads. The two JSVal
fields keep raw JS values because the source only tests their truthiness. -/
structure LDOptions where
  disableSyncEventPost : JSVal
  useReport : JSVal
  fetchGoals : Bool
  deriving DecidableEq, Repr

/-- The value of the source expression reading disableSyncEventPost through
a short-circuit conjunction with the options object: undefined when the
options argument is absent, the raw property value otherwise. -/
def disableSyncFlushOf : Option LDOptions → JSVal
  | none => JSVal.undef
  | some o => o.disableSyncEventPost

/-- The value of the source expression reading useReport through a
short-circuit conjunction with the options object. -/
def useReportOf : Option LDOptions → JSVal
  | none => JSVal.undef
  | some o => o.useReport

/-- Which httpRequest implementation the platform descriptor carries: the
legacy XMLHttpRequest-based strategy (closing over the captured
disableSyncEventPost value) or the fetch-based strategy. -/
inductive HttpStrategy where
  | legacy : JSVal → HttpStrategy
  | fetchBased : HttpStrategy
  deriving DecidableEq, Repr

/-- The localStorage slot of the descriptor: field not set at all, field set
to the explicit null marker after the probe threw, or field set to the
wrapper object. -/
inductive LSSlot where
  | omitted : LSSlot
  | nullMarker : LSSlot
  | available : LSSlot
  deriving DecidableEq, Repr

/-- A JS exception escaping to the caller; the adapter can only raise a
ReferenceError, from reading an unbound identifier. -/
inductive JSErr where
  | referenceError : String → JSErr
  deriving DecidableEq, Repr

/-- The platform descriptor makeBrowserPlatform builds, restricted to the
fields the verified claims are about. -/
structure Platform where
  userAgentHeaderName : String
  synchronousFlush : Bool
  httpStrategy : Option HttpStrategy
  localStorage : LSSlot
  eventSourceAllowsReport : Bool
  hasEventSourceFactory : Bool
  userAgent : String
  deriving DecidableEq, Repr

/-- Embedding of makeBrowserPlatform. The HTTP-strategy branch of the source
tests the bare lowercase identifier global (not the resolved GLOBAL): when
that identifier is unbound the read throws a ReferenceError and construction
aborts; when it is bound it denotes the host global object, so the test sees
the XMLHttpRequest capability of the host. The fetch branch and all later
probes use the resolved GLOBAL. The storage probe is wrapped in a
try-catch that turns a throwing access into an explicit null slot. -/
def makeBrowserPlatform (options : Option LDOptions) (h : Host) : Except JSErr Platform :=
  if h.hasGlobalBinding then
    let httpStrategy : Option HttpStrategy :=
      if h.xhr.isSome then some (HttpStrategy.legacy (disableSyncFlushOf options))
      else if h.fetch then some HttpStrategy.fetchBased
      else none
    let ls : LSSlot :=
      match h.localStorage with
      | LSProbe.present => LSSlot.available
      | LSProbe.absent => LSSlot.omitted
      | LSProbe.throws => LSSlot.nullMarker
    let polyfillReady : Bool :=
      match h.eventSourcePolyfill with
      | some cap => cap.supportedOptionsMethod
      | none => false
    Except.ok
      { userAgentHeaderName := "X-LaunchDarkly-User-Agent"
        synchronousFlush := false
        httpStrategy := httpStrategy
        localStorage := ls
        eventSourceAllowsReport := jsTruthy (useReportOf options) && polyfillReady
        hasEventSourceFactory := h.eventSource
        userAgent := "JSClient" }
  else
    Except.error (JSErr.referenceError "global")

/-- Embedding of the memoized httpAllowsPost closure. The captured cell
hasCors is passed and returned explicitly: the pair is the returned value
and the cell after the call. The source fills the cell only when one of the
two APIs is present, and returns the cell unconditionally. -/
def httpAllowsPost (h : Host) (hasCors : Option Bool) : Option Bool × Option Bool :=
  let cell : Option Bool :=
    if hasCors.isNone then
      match h.xhr with
      | some cap => some cap.withCredentials
      | none => if h.fetch then some true else hasCors
    else hasCors
  (cell, cell)

/-- Embedding of isDoNotTrack: a flag is selected from
navigator.doNotTrack, navigator.msDoNotTrack (each only when navigator is
truthy and the property is not undefined) or the global doNotTrack
property, then compared strictly against the four accepted values. -/
def isDoNotTrack (h : Host) : Bool :=
  let flag : JSVal :=
    match h.navigator with
    | some nav =>
      if nav.doNotTrack != JSVal.undef then nav.doNotTrack
      else if nav.msDoNotTrack != JSVal.undef then nav.msDoNotTrack
      else h.doNotTrackGlobal
    | none => h.doNotTrackGlobal
  flag == JSVal.num 1 || flag == JSVal.bool true || flag == JSVal.str "1" ||
    flag == JSVal.str "yes"

/-- Contribution of a Bool operand to the JS bitwise conjunction of the
source (ToInt32 of true is 1 and of false is 0). -/
def jsBitOfBool (b : Bool) : Nat := if b then 1 else 0

/-- The argument tuple handed to the request-issuing module. Modelled from
the spec: the httpRequest module that issues the actual request is not under
src/ (the spec calls it a thin request wrapper), so the delegation is
modelled as the record of the arguments passed to it, together with the
platform flag visible at the moment of the call. -/
structure DelegatedRequest where
  method : String
  url : String
  headers : String
  body : String
  syncFlush : Nat
  flagAtCall : Bool
  deriving DecidableEq, Repr

/-- Embedding of the legacy XMLHttpRequest-based httpRequest closure. The
local syncFlush is the JS bitwise conjunction of the current
synchronousFlush flag with the negation of the captured
disableSyncEventPost value; the flag is then reset to false, and only then
is the underlying request module invoked with syncFlush as its last
argument. The pair holds the delegated call and the platform after it. -/
def legacyHttpRequest (disableSyncFlush : JSVal) (method url headers body : String)
    (p : Platform) : DelegatedRequest × Platform :=
  let sf : Nat :=
    Nat.land (jsBitOfBool p.synchronousFlush) (jsBitOfBool (! jsTruthy disableSyncFlush))
  let p1 : Platform := { p with synchronousFlush := false }
  (⟨method, url, headers, body, sf, p1.synchronousFlush⟩, p1)

/-- A fetch response as the adapter reads it: status code, response headers
and the resolved response text. -/
structure FetchResponse where
  status : Int
  headers : List (String × String)
  bodyText : String
  deriving DecidableEq, Repr

/-- What the promise returned by the fetch-based httpRequest can resolve
with: the undefined value, or the uniform response record of status, header
table and body text. -/
inductive FetchHttpResult where
  | undef : FetchHttpResult
  | uniform : Int → List (String × String) → String → FetchHttpResult
  deriving DecidableEq, Repr

/-- Reading a named response header, as headers.get does: the stored value,
or null when the header is absent. -/
def headerGet (headers : List (String × String)) (key : String) : JSVal :=
  match headers.lookup key with
  | some v => JSVal.str v
  | none => JSVal.null

/-- Embedding of the fetch-based httpRequest closure. The fetch
implementation of the host is passed explicitly and yields the settled
fetch promise. Its then-callback evaluates the chained text promise that
builds the uniform record, but the source writes no return in front of that
inner chain, so the callback completes with undefined and the promise the
caller gets resolves with undefined; the built record is discarded. -/
def fetchHttpRequest
    (fetchImpl : String → String → String → String → JSPromise FetchResponse)
    (method url headers body : String) : JSPromise FetchHttpResult :=
  match fetchImpl url method headers body with
  | JSPromise.rejected e => JSPromise.rejected e
  | JSPromise.resolved res =>
    let _discarded : JSPromise FetchHttpResult :=
      JSPromise.resolved (FetchHttpResult.uniform res.status res.headers res.bodyText)
    JSPromise.resolved FetchHttpResult.undef

/-- State of the goals readiness signal wired in index.js: whether the
manually registered listen-once handler is still attached to the emitter,
and whether the cached goals promise has been resolved. -/
structure GoalsSignal where
  listenerOn : Bool
  fired : Bool
  deriving DecidableEq, Repr

/-- The signal right after initialize wires it: one handler registered on
the goals event, promise pending. -/
def wiredSignal : GoalsSignal := { listenerOn := true, fired := false }

/-- Emitting the goals event: when the handler is attached it removes
itself from the emitter and resolves the promise; afterwards an emission
finds no handler and resolving an already resolved promise is a no-op, so
the state is unchanged. -/
def emitGoals (s : GoalsSignal) : GoalsSignal :=
  if s.listenerOn then { listenerOn := false, fired := true } else s

/-- Modelled from the spec: the GoalManager module is not under src/; per
the spec it is constructed with a callback that fires the readiness event,
so invoking that callback performs exactly one emission of the goals
event. -/
def goalManagerOnReady : GoalsSignal → GoalsSignal := emitGoals

/-- The environment facts initialize branches on: whether a DOM is present
and the validated fetchGoals option. -/
structure InitEnv where
  hasDOM : Bool
  fetchGoals : Bool
  deriving DecidableEq, Repr

/-- Embedding of the goals wiring of initialize: with a DOM and goal
fetching enabled a GoalManager is constructed and given the emit callback
(the Bool records that), otherwise the goals event is emitted immediately
and synchronously. -/
def initGoalsSignal (env : InitEnv) : GoalsSignal × Bool :=
  if env.hasDOM && env.fetchGoals then (wiredSignal, true)
  else (emitGoals wiredSignal, false)

/-- Iterated emissions of the goals event. -/
def emitsFrom (s : GoalsSignal) : Nat → GoalsSignal
  | 0 => s
  | n + 1 => emitGoals (emitsFrom s n)

/-- How many of the first n emission steps move the signal from pending to
fired. -/
def firingCount (s : GoalsSignal) : Nat → Nat
  | 0 => 0
  | n + 1 =>
    firingCount s n +
      (if !(emitsFrom s n).fired && (emitsFrom s (n + 1)).fired then 1 else 0)

/-- The client handle carries the identity of the one goals promise
allocated during initialize. -/
structure Client where
  goalsPromiseId : Nat
  deriving DecidableEq, Repr

/-- Embedding of the waitUntilGoalsReady closure added to the client: every
call returns the one cached goals promise. -/
def waitUntilGoalsReady (c : Client) (_call : Nat) : Nat := c.goalsPromiseId

/-- Embedding of the hidden-page handler syncFlush of index.js: it sets the
synchronousFlush flag, calls flush (which observes the platform flag at
that moment, passed here as its argument), attaches an empty catch handler
to the returned promise, and resets the flag. The triple is the final
platform, the flag value flush observed, and the promise after the catch. -/
def syncFlush (flush : Bool → JSPromise JSVal) (p : Platform) :
    Platform × Bool × JSPromise JSVal :=
  let p1 : Platform := { p with synchronousFlush := true }
  let flushResult : JSPromise JSVal := flush p1.synchronousFlush
  let handled : JSPromise JSVal := jsCatch flushResult (fun _ => JSVal.undef)
  let p2 : Platform := { p1 with synchronousFlush := false }
  (p2, p1.synchronousFlush, handled)

/-- An unbundled browser window host: the global object (window, also
reachable as self) carries XMLHttpRequest, fetch, localStorage and
EventSource, but the bare node-style identifier global is unbound. -/
def browserWindowHost : Host :=
  { hasGlobalBinding := false
    xhr := some { withCredentials := true }
    fetch := true
    navigator := some { doNotTrack := JSVal.undef, msDoNotTrack := JSVal.undef }
    doNotTrackGlobal := JSVal.undef
    localStorage := LSProbe.present
    eventSource := true
    eventSourcePolyfill := none }

/-- A service worker host: the global object (self) has fetch but no
XMLHttpRequest, no DOM storage probing issue, and no bare global binding. -/
def serviceWorkerHost : Host :=
  { hasGlobalBinding := false
    xhr := none
    fetch := true
    navigator := none
    doNotTrackGlobal := JSVal.undef
    localStorage := LSProbe.absent
    eventSource := true
    eventSourcePolyfill := none }

/-- A host whose storage access throws (privacy-restricted browser with a
bundler shim providing the global binding). -/
def throwingStorageHost : Host :=
  { hasGlobalBinding := true
    xhr := some { withCredentials := true }
    fetch := true
    navigator := none
    doNotTrackGlobal := JSVal.undef
    localStorage := LSProbe.throws
    eventSource := false
    eventSourcePolyfill := none }

/-- A host with neither XMLHttpRequest nor fetch (server-side rendering
with the global binding bound). -/
def bareHost : Host :=
  { hasGlobalBinding := true
    xhr := none
    fetch := false
    navigator := none
    doNotTrackGlobal := JSVal.undef
    localStorage := LSProbe.absent
    eventSource := false
    eventSourcePolyfill := none }

/-- C1: the claim states that makeBrowserPlatform installs the legacy
strategy whenever XMLHttpRequest is detected on the host global object.
Evaluation at a browser window host refutes this: XMLHttpRequest is present
on the host global object, yet construction throws a ReferenceError because
the source tests the bare node-only identifier global instead of the
resolved global object, so no strategy is installed at all. -/
theorem makeBrowserPlatform_throws_despite_xhr :
    browserWindowHost.xhr.isSome = true ∧
    makeBrowserPlatform none browserWindowHost =
      Except.error (JSErr.referenceError "global") :=
  ⟨rfl, rfl⟩

/-- C3: the claim states that no platform-descriptor operation, including
construction, throws to its caller. Evaluation at a service worker host
refutes this: the host merely lacks XMLHttpRequest (fetch is present), and
instead of omitting or filling the field, construction itself throws the
ReferenceError raised by reading the unbound identifier global. -/
theorem makeBrowserPlatform_throws_in_service_worker :
    serviceWorkerHost.fetch = true ∧
    makeBrowserPlatform
        (some { disableSyncEventPost := JSVal.undef, useReport := JSVal.undef,
                fetchGoals := true })
        serviceWorkerHost =
      Except.error (JSErr.referenceError "global") :=
  ⟨rfl, rfl⟩

/-- Sample fetch implementation: every request settles with a successful
response of status 200, one etag header and a small body text. -/
def sampleFetchImpl : String → String → String → String → JSPromise FetchResponse :=
  fun _ _ _ _ =>
    JSPromise.resolved { status := 200, headers := [("etag", "abc")], bodyText := "hello" }

/-- C2: the claim states that the fetch-based httpRequest resolves with the
uniform response record. Evaluation at a concrete successful fetch refutes
this: the promise resolves with undefined, not with the uniform record,
because the inner text-promise chain that builds the record is never
returned from the then-callback. -/
theorem fetch_httpRequest_resolves_undefined :
    fetchHttpRequest sampleFetchImpl "GET" "https://example.com/sdk/evalx" "" "" =
      JSPromise.resolved FetchHttpResult.undef ∧
    fetchHttpRequest sampleFetchImpl "GET" "https://example.com/sdk/evalx" "" "" ≠
      JSPromise.resolved (FetchHttpResult.uniform 200 [("etag", "abc")] "hello") := by
  constructor
  · rfl
  · decide

/-- C4: httpAllowsPost is memoized. A first call in host h1 fills the cell
with its result; a second call in any host h2 obtained from h1 by possibly
removing the XMLHttpRequest or fetch API returns the value of the first
call. -/
theorem httpAllowsPost_memoized (h1 h2 : Host)
    (hx : h2.xhr = h1.xhr ∨ h2.xhr = none)
    (hf : h2.fetch = h1.fetch ∨ h2.fetch = false) :
    (httpAllowsPost h2 (httpAllowsPost h1 none).2).1 = (httpAllowsPost h1 none).1 := by
  cases hx1 : h1.xhr with
  | some cap => simp [httpAllowsPost, hx1]
  | none =>
    cases hf1 : h1.fetch with
    | true => simp [httpAllowsPost, hx1, hf1]
    | false =>
      have hx2 : h2.xhr = none := by
        rcases hx with h | h
        · rw [h, hx1]
        · exact h
      have hf2 : h2.fetch = false := by
        rcases hf with h | h
        · rw [h, hf1]
        · exact h
      simp [httpAllowsPost, hx1, hf1, hx2, hf2]

/-- Witness for C4 at concrete hosts: first call in the browser window host
(both APIs present), second after both APIs were removed. -/
theorem httpAllowsPost_memoized_witness :
    (httpAllowsPost bareHost (httpAllowsPost browserWindowHost none).2).1 =
      (httpAllowsPost browserWindowHost none).1 :=
  httpAllowsPost_memoized browserWindowHost bareHost (Or.inr rfl) (Or.inr rfl)

/-- C10: when the host has neither XMLHttpRequest nor fetch, httpAllowsPost
returns undefined (not a boolean), leaves the memoization cell unfilled,
and therefore a later call starting from the resulting cell behaves exactly
like a fresh call, re-evaluating the probe in whatever host it then sees. -/
theorem httpAllowsPost_stays_undefined (h : Host)
    (hx : h.xhr = none) (hf : h.fetch = false) :
    (httpAllowsPost h none).1 = none ∧
    (httpAllowsPost h none).2 = none ∧
    (∀ h2 : Host, (httpAllowsPost h2 (httpAllowsPost h none).2).1 =
      (httpAllowsPost h2 none).1) := by
  have hcall : httpAllowsPost h none = (none, none) := by
    simp [httpAllowsPost, hx, hf]
  refine ⟨by rw [hcall], by rw [hcall], ?_⟩
  intro h2
  rw [hcall]

/-- Witness for C10 at the bare host with neither API. -/
theorem httpAllowsPost_stays_undefined_witness :
    (httpAllowsPost bareHost none).1 = none ∧
    (httpAllowsPost bareHost none).2 = none ∧
    (∀ h2 : Host, (httpAllowsPost h2 (httpAllowsPost bareHost none).2).1 =
      (httpAllowsPost h2 none).1) :=
  httpAllowsPost_stays_undefined bareHost rfl rfl

/-- C7: when the storage probe throws during construction (and construction
reaches the probe, the node-style global binding being present),
construction completes normally and the localStorage slot is exactly the
explicit null marker, distinguishable from the omitted slot. -/
theorem localStorage_throw_yields_null (options : Option LDOptions) (h : Host)
    (hg : h.hasGlobalBinding = true) (hls : h.localStorage = LSProbe.throws) :
    ∃ p : Platform, makeBrowserPlatform options h = Except.ok p ∧
      p.localStorage = LSSlot.nullMarker ∧ p.localStorage ≠ LSSlot.omitted := by
  refine
    ⟨{ userAgentHeaderName := "X-LaunchDarkly-User-Agent"
       synchronousFlush := false
       httpStrategy :=
         if h.xhr.isSome then some (HttpStrategy.legacy (disableSyncFlushOf options))
         else if h.fetch then some HttpStrategy.fetchBased
         else none
       localStorage := LSSlot.nullMarker
       eventSourceAllowsReport :=
         jsTruthy (useReportOf options) &&
           (match h.eventSourcePolyfill with
            | some cap => cap.supportedOptionsMethod
            | none => false)
       hasEventSourceFactory := h.eventSource
       userAgent := "JSClient" }, ?_, rfl,
      by intro hcontra; exact LSSlot.noConfusion hcontra⟩
  simp [makeBrowserPlatform, hg, hls]

/-- Witness for C7 at a concrete host whose storage access throws. -/
theorem localStorage_throw_yields_null_witness :
    ∃ p : Platform, makeBrowserPlatform none throwingStorageHost = Except.ok p ∧
      p.localStorage = LSSlot.nullMarker ∧ p.localStorage ≠ LSSlot.omitted :=
  localStorage_throw_yields_null none throwingStorageHost rfl rfl

/-- C5: for every flush behaviour and every starting platform state, the
hidden-page handler invokes flush while the synchronousFlush flag is true,
the flag is false again when the handler returns, and the promise left
behind after the attached catch handler is never in the rejected state, so
a rejection of flush is swallowed. -/
theorem syncFlush_transient_flag (flush : Bool → JSPromise JSVal) (p : Platform) :
    (syncFlush flush p).2.1 = true ∧
    (syncFlush flush p).1.synchronousFlush = false ∧
    (syncFlush flush p).2.2.isRejected = false := by
  refine ⟨rfl, rfl, ?_⟩
  show (jsCatch (flush true) (fun _ => JSVal.undef)).isRejected = false
  cases flush true with
  | resolved v => rfl
  | rejected e => rfl

/-- The do-not-track value the spec says is consulted: the first defined
among the standard navigator property, the vendor-prefixed navigator
property, and the global fallback. -/
def dntFirstDefined (h : Host) : JSVal :=
  let navDNT : JSVal :=
    match h.navigator with
    | some nav => nav.doNotTrack
    | none => JSVal.undef
  let navMs : JSVal :=
    match h.navigator with
    | some nav => nav.msDoNotTrack
    | none => JSVal.undef
  if navDNT != JSVal.undef then navDNT
  else if navMs != JSVal.undef then navMs
  else h.doNotTrackGlobal

/-- C8: isDoNotTrack selects exactly the first defined value among
navigator.doNotTrack, navigator.msDoNotTrack and the global doNotTrack and
tests it: the result is true exactly when that value is 1, true, the
string 1 or the string yes; in particular the string 0, the number 0,
false and undefined all give false. -/
theorem isDoNotTrack_characterization (h : Host) :
    (isDoNotTrack h = true ↔
      (dntFirstDefined h = JSVal.num 1 ∨ dntFirstDefined h = JSVal.bool true ∨
        dntFirstDefined h = JSVal.str "1" ∨ dntFirstDefined h = JSVal.str "yes")) ∧
    ((dntFirstDefined h = JSVal.str "0" ∨ dntFirstDefined h = JSVal.num 0 ∨
        dntFirstDefined h = JSVal.bool false ∨ dntFirstDefined h = JSVal.undef) →
      isDoNotTrack h = false) := by
  have hsel : isDoNotTrack h =
      (dntFirstDefined h == JSVal.num 1 || dntFirstDefined h == JSVal.bool true ||
        dntFirstDefined h == JSVal.str "1" || dntFirstDefined h == JSVal.str "yes") := by
    cases hnav : h.navigator with
    | none => simp [isDoNotTrack, dntFirstDefined, hnav]
    | some nav => simp [isDoNotTrack, dntFirstDefined, hnav]
  constructor
  · rw [hsel]
    simp [Bool.or_eq_true, beq_iff_eq, or_assoc]
  · intro hbad
    rw [hsel]
    rcases hbad with hv | hv | hv | hv <;> rw [hv] <;> rfl

/-- C9: every legacy httpRequest call leaves the synchronousFlush flag
false (the reset happens before the delegation, so the delegate observes a
false flag), the synchronous-delivery argument handed down is nonzero
exactly when the flag was set and the captured disableSyncEventPost value
is falsy, and a second request issued right after the first is never
synchronous. -/
theorem legacy_httpRequest_resets_flag (options : Option LDOptions) (p : Platform)
    (method url headers body : String) :
    ((legacyHttpRequest (disableSyncFlushOf options) method url headers body p).2).synchronousFlush
        = false ∧
    ((legacyHttpRequest (disableSyncFlushOf options) method url headers body p).1).flagAtCall
        = false ∧
    (((legacyHttpRequest (disableSyncFlushOf options) method url headers body p).1).syncFlush ≠ 0
      ↔ (p.synchronousFlush = true ∧ jsTruthy (disableSyncFlushOf options) = false)) ∧
    ((legacyHttpRequest (disableSyncFlushOf options) method url headers body
        (legacyHttpRequest (disableSyncFlushOf options) method url headers body p).2).1).syncFlush
        = 0 := by
  refine ⟨rfl, rfl, ?_, ?_⟩
  · show Nat.land (jsBitOfBool p.synchronousFlush)
        (jsBitOfBool (! jsTruthy (disableSyncFlushOf options))) ≠ 0 ↔ _
    cases hflag : p.synchronousFlush <;>
      cases hdis : jsTruthy (disableSyncFlushOf options) <;>
        simp [jsBitOfBool] <;> decide
  · show Nat.land (jsBitOfBool false) _ = 0
    cases hdis : jsTruthy (disableSyncFlushOf options) <;> rfl

/-- One emission from the freshly wired signal detaches the handler and
fires the promise; every further emission leaves that state unchanged. -/
theorem emitsFrom_wired_succ (n : Nat) :
    emitsFrom wiredSignal (n + 1) = { listenerOn := false, fired := true } := by
  induction n with
  | zero => rfl
  | succ k ih =>
    show emitGoals (emitsFrom wiredSignal (k + 1)) = _
    rw [ih]
    rfl

/-- Among any positive number of emissions from the wired signal, exactly
one moves it from pending to fired. -/
theorem firingCount_wired (n : Nat) : firingCount wiredSignal (n + 1) = 1 := by
  induction n with
  | zero => rfl
  | succ k ih =>
    rw [firingCount, ih, emitsFrom_wired_succ k, emitsFrom_wired_succ (k + 1)]
    decide

/-- C6: on the immediate path the readiness signal is already fired when
initialize returns; on the goal-manager path the signal fires when the
manager invokes its callback; over any positive number of emissions the
pending-to-fired transition happens exactly once; a fired signal never
returns to pending; and every call of waitUntilGoalsReady returns the one
cached goals promise. -/
theorem goals_ready_fires_once (env : InitEnv) (n : Nat) (hn : 1 ≤ n) :
    ((env.hasDOM && env.fetchGoals) = false → (initGoalsSignal env).1.fired = true) ∧
    ((env.hasDOM && env.fetchGoals) = true → (initGoalsSignal env).2 = true ∧
      (goalManagerOnReady (initGoalsSignal env).1).fired = true) ∧
    (emitsFrom wiredSignal n).fired = true ∧
    firingCount wiredSignal n = 1 ∧
    (∀ (m : Nat) (s : GoalsSignal), s.fired = true → (emitsFrom s m).fired = true) ∧
    (∀ (c : Client) (a b : Nat), waitUntilGoalsReady c a = waitUntilGoalsReady c b) := by
  obtain ⟨k, rfl⟩ : ∃ k, n = k + 1 := by
    cases n with
    | zero => exact absurd hn (by decide)
    | succ k => exact ⟨k, rfl⟩
  refine ⟨?_, ?_, ?_, firingCount_wired k, ?_, fun c a b => rfl⟩
  · intro hpath
    simp [initGoalsSignal, hpath, emitGoals, wiredSignal]
  · intro hpath
    refine ⟨?_, ?_⟩
    · simp [initGoalsSignal, hpath]
    · simp [initGoalsSignal, hpath, goalManagerOnReady, emitGoals, wiredSignal]
  · rw [emitsFrom_wired_succ k]
  · intro m s hs
    induction m with
    | zero => exact hs
    | succ j ih =>
      show (emitGoals (emitsFrom s j)).fired = true
      unfold emitGoals
      by_cases hl : (emitsFrom s j).listenerOn = true
      · rw [if_pos hl]
      · rw [if_neg hl]
        exact ih

/-- Witness for C6 at the concrete environment without a DOM (immediate
path) and one emission. -/
theorem goals_ready_fires_once_witness :
    ((({ hasDOM := false, fetchGoals := true } : InitEnv).hasDOM &&
        ({ hasDOM := false, fetchGoals := true } : InitEnv).fetchGoals) = false →
      (initGoalsSignal { hasDOM := false, fetchGoals := true }).1.fired = true) ∧
    ((({ hasDOM := false, fetchGoals := true } : InitEnv).hasDOM &&
        ({ hasDOM := false, fetchGoals := true } : InitEnv).fetchGoals) = true →
      (initGoalsSignal { hasDOM := false, fetchGoals := true }).2 = true ∧
      (goalManagerOnReady
          (initGoalsSignal { hasDOM := false, fetchGoals := true }).1).fired = true) ∧
    (emitsFrom wiredSignal 1).fired = true ∧
    firingCount wiredSignal 1 = 1 ∧
    (∀ (m : Nat) (s : GoalsSignal), s.fired = true → (emitsFrom s m).fired = true) ∧
    (∀ (c : Client) (a b : Nat), waitUntilGoalsReady c a = waitUntilGoalsReady c b) :=
  goals_ready_fires_once { hasDOM := false, fetchGoals := true } 1 (by decide)
